import Mathlib

/-!
Shallow embedding of the device-emulation dispatch layer of the
arceos-hypervisor repository (`src/modules/axvm/src/device/x86_64/mod.rs`),
together with proofs about its dispatch and register-update behaviour.

Machine integers (`u16`, `u32`, `u64`) are modelled as `Nat`, with explicit
`% 2 ^ w` at the points where the Rust code performs a truncating cast or a
wrapping shift.  Fallible operations return `Except`.  Rust panics
(`panic!`, `unreachable!`, `Option::unwrap` / `Result::expect`) are modelled
as an explicit `panic` outcome carrying the data that the panic message
formats: the message itself, plus the guest instruction pointer, vCPU
register dump and MSR index when (and only when) the corresponding format
arguments appear in the source.  Device reads and writes are recorded in an
event log so that "the device was (not) accessed" is expressible.
-/

namespace AxvmX86Device

/-- Error type (`HyperError` / `hypercraft::HyperError`): only the variants
this module mentions, plus a catch-all for device-internal errors. -/
inductive HyperError where
  | NotSupported
  | DecodeError
  | NotFound
  | BadState
  deriving DecidableEq, Repr

/-- A half-open range `lo..hi`, modelling Rust `Range` as used by
`port_range()` / `mmio_range()` / `msr_range()`. -/
structure IoRange where
  lo : Nat
  hi : Nat
  deriving DecidableEq, Repr

/-- `Range::contains`: `lo <= x < hi`. -/
def IoRange.contains (r : IoRange) (x : Nat) : Bool :=
  decide (r.lo ≤ x) && decide (x < r.hi)

/-- A port-I/O device (`dyn PioOps`): declared port range plus read/write.
`read port access_size` returns a `u32` value; `write port access_size value`
consumes one. -/
structure PioDev where
  port_range : IoRange
  read : Nat → Nat → Except HyperError Nat
  write : Nat → Nat → Nat → Except HyperError Unit

/-- A memory-mapped-I/O device (`dyn MmioOps`): only the range is consulted
by the code under verification. -/
structure MmioDev where
  mmio_range : IoRange

/-- An MSR device (`dyn VirtMsrOps`): declared MSR index range plus 64-bit
read/write. -/
structure MsrDev where
  msr_range : IoRange
  read : Nat → Except HyperError Nat
  write : Nat → Nat → Except HyperError Unit

/-- The PCI root bus, abstracted by the only query this module performs on
it: `find_pio_bar port`, returning a BAR-backed port-I/O device handle on a
match. -/
structure PciRootBus where
  find_pio_bar : Nat → Option PioDev

/-- `DummyPciHost`: owns a root bus. -/
structure DummyPciHost where
  root_bus : PciRootBus

/-- `DeviceList`: three ordered device sequences plus an optional PCI host. -/
structure DeviceList where
  port_io_devices : List PioDev
  memory_io_devices : List MmioDev
  msr_devices : List MsrDev
  pci_devices : Option DummyPciHost

/-- `DeviceList::new`. -/
def DeviceList.new : DeviceList :=
  { port_io_devices := [], memory_io_devices := [], msr_devices := [],
    pci_devices := none }

/-- `add_port_io_device`: `Vec::push` appends at the end. -/
def DeviceList.add_port_io_device (l : DeviceList) (d : PioDev) : DeviceList :=
  { l with port_io_devices := l.port_io_devices ++ [d] }

/-- `add_port_io_devices`: `Vec::append` concatenates at the end. -/
def DeviceList.add_port_io_devices (l : DeviceList) (ds : List PioDev) : DeviceList :=
  { l with port_io_devices := l.port_io_devices ++ ds }

/-- `find_port_io_device`: first device whose port range contains the port. -/
def DeviceList.find_port_io_device (l : DeviceList) (port : Nat) : Option PioDev :=
  l.port_io_devices.find? (fun dev => dev.port_range.contains port)

/-- `add_memory_io_device`. -/
def DeviceList.add_memory_io_device (l : DeviceList) (d : MmioDev) : DeviceList :=
  { l with memory_io_devices := l.memory_io_devices ++ [d] }

/-- `find_memory_io_device`. -/
def DeviceList.find_memory_io_device (l : DeviceList) (address : Nat) : Option MmioDev :=
  l.memory_io_devices.find? (fun dev => dev.mmio_range.contains address)

/-- `add_msr_device`. -/
def DeviceList.add_msr_device (l : DeviceList) (d : MsrDev) : DeviceList :=
  { l with msr_devices := l.msr_devices ++ [d] }

/-- `find_msr_device`. -/
def DeviceList.find_msr_device (l : DeviceList) (msr : Nat) : Option MsrDev :=
  l.msr_devices.find? (fun dev => dev.msr_range.contains msr)

/-- Guest general-purpose registers and instruction pointer, the parts of
the vCPU state this module reads or mutates (`vcpu.regs()` /
`vcpu.regs_mut()` / `vcpu.advance_rip`). -/
structure GuestRegs where
  rax : Nat
  rbx : Nat
  rcx : Nat
  rdx : Nat
  rip : Nat
  deriving DecidableEq, Repr

/-- I/O-exit sub-descriptor (`vcpu.io_exit_info()`). -/
structure IoExitInfo where
  port : Nat
  access_size : Nat
  is_in : Bool
  is_string : Bool
  is_repeat : Bool
  deriving DecidableEq, Repr

/-- Exit descriptor fields this module uses (`VmxExitInfo`). -/
structure VmxExitInfo where
  guest_rip : Nat
  exit_instruction_length : Nat
  deriving DecidableEq, Repr

/-- The data carried by a Rust panic site: its message, and the guest RIP /
vCPU register dump / MSR index exactly when the panic message formats them. -/
structure PanicDiag where
  msg : String
  rip : Option Nat
  regs : Option GuestRegs
  msr : Option Nat
  deriving DecidableEq, Repr

/-- A device access performed by the I/O dispatch protocol. -/
inductive IoEvent where
  | read (port access_size : Nat)
  | write (port access_size value : Nat)
  deriving DecidableEq, Repr

/-- Outcome of the port-I/O protocol: success with the new guest registers,
a propagated `HyperError` (registers as left at the error point), or a
panic. -/
inductive PioOutcome where
  | ok (regs : GuestRegs)
  | fail (e : HyperError) (regs : GuestRegs)
  | panic (diag : PanicDiag)
  deriving DecidableEq, Repr

/-- `DeviceList::handle_io_instruction_to_device`.  The `io_exit_info()`
descriptor is passed explicitly (the source unwraps it from the vCPU).
Returns the outcome together with the log of device accesses. -/
def handle_io_instruction_to_device (dev : PioDev) (regs : GuestRegs)
    (io_info : IoExitInfo) (exit_info : VmxExitInfo) : PioOutcome × List IoEvent :=
  if io_info.is_string then
    (.fail .NotSupported regs, [])
  else if io_info.is_repeat then
    (.fail .NotSupported regs, [])
  else if io_info.is_in then
    match dev.read io_info.port io_info.access_size with
    | .error e => (.fail e regs, [.read io_info.port io_info.access_size])
    | .ok value =>
      match io_info.access_size with
      | 1 =>
        (.ok { regs with
                rax := regs.rax &&& 0xffffffffffffff00 ||| (value &&& 0xff),
                rip := regs.rip + exit_info.exit_instruction_length },
          [.read io_info.port io_info.access_size])
      | 2 =>
        (.ok { regs with
                rax := regs.rax &&& 0xffffffffffff0000 ||| (value &&& 0xffff),
                rip := regs.rip + exit_info.exit_instruction_length },
          [.read io_info.port io_info.access_size])
      | 4 =>
        (.ok { regs with
                rax := value,
                rip := regs.rip + exit_info.exit_instruction_length },
          [.read io_info.port io_info.access_size])
      | _ =>
        (.panic { msg := "unreachable", rip := none, regs := none, msr := none },
          [.read io_info.port io_info.access_size])
    else
      let doWrite := fun (v : Nat) =>
        let value := v % 2 ^ 32
        match dev.write io_info.port io_info.access_size value with
        | .error e =>
          (PioOutcome.fail e regs, [IoEvent.write io_info.port io_info.access_size value])
        | .ok _ =>
          (PioOutcome.ok { regs with rip := regs.rip + exit_info.exit_instruction_length },
            [IoEvent.write io_info.port io_info.access_size value])
      match io_info.access_size with
      | 1 => doWrite (regs.rax &&& 0xff)
      | 2 => doWrite (regs.rax &&& 0xffff)
      | 4 => doWrite regs.rax
      | _ => (.panic { msg := "unreachable", rip := none, regs := none, msr := none }, [])

/-- `DeviceList::handle_io_instruction`: primary device list first, then —
only on a primary miss — the PCI root bus BAR lookup; `none` when both
miss. -/
def DeviceList.handle_io_instruction (l : DeviceList) (regs : GuestRegs)
    (io_info : IoExitInfo) (exit_info : VmxExitInfo) :
    Option (PioOutcome × List IoEvent) :=
  match l.find_port_io_device io_info.port with
  | some dev => some (handle_io_instruction_to_device dev regs io_info exit_info)
  | none =>
    match l.pci_devices with
    | some pci_host =>
      match pci_host.root_bus.find_pio_bar io_info.port with
      | some bar => some (handle_io_instruction_to_device bar regs io_info exit_info)
      | none => none
    | none => none

/-- `VM_EXIT_INSTR_LEN_RDMSR`. -/
def VM_EXIT_INSTR_LEN_RDMSR : Nat := 2

/-- `VM_EXIT_INSTR_LEN_WRMSR`. -/
def VM_EXIT_INSTR_LEN_WRMSR : Nat := 2

/-- A device access performed by the MSR dispatch protocol. -/
inductive MsrEvent where
  | read (msr : Nat)
  | write (msr value : Nat)
  deriving DecidableEq, Repr

/-- Outcome of MSR dispatch: success or panic, each with the device-access
log. -/
inductive MsrOutcome where
  | ok (regs : GuestRegs) (events : List MsrEvent)
  | panic (diag : PanicDiag) (events : List MsrEvent)
  deriving DecidableEq, Repr

/-- The device-access log of an MSR dispatch outcome. -/
def MsrOutcome.events : MsrOutcome → List MsrEvent
  | .ok _ ev => ev
  | .panic _ ev => ev

/-- `DeviceList::handle_msr_read`.  `rcx as u32` is `rcx % 2 ^ 32`; on a hit
the 64-bit device value is split as `rax := value & 0xffff_ffff`,
`rdx := value >> 32`; a missing device panics with the MSR index and the
vCPU dump. -/
def DeviceList.handle_msr_read (l : DeviceList) (regs : GuestRegs) : MsrOutcome :=
  let msr := regs.rcx % 2 ^ 32
  match l.find_msr_device msr with
  | some dev =>
    match dev.read msr with
    | .ok value =>
      .ok { regs with
              rax := value &&& 0xffffffff,
              rdx := value >>> 32,
              rip := regs.rip + VM_EXIT_INSTR_LEN_RDMSR }
        [.read msr]
    | .error _ =>
      .panic { msg := "Failed to handle RDMSR", rip := none, regs := none, msr := some msr }
        [.read msr]
  | none =>
    .panic { msg := "Unsupported RDMSR", rip := none, regs := some regs, msr := some msr } []

/-- The 64-bit value recombined by `handle_msr_write`:
`(rax & 0xffff_ffff) | (rdx << 32)` with `u64` wrap-around on the shift. -/
def msr_write_value (rax rdx : Nat) : Nat :=
  (rax &&& 0xffffffff) ||| ((rdx <<< 32) % 2 ^ 64)

/-- `DeviceList::handle_msr_write`. -/
def DeviceList.handle_msr_write (l : DeviceList) (regs : GuestRegs) : MsrOutcome :=
  let msr := regs.rcx % 2 ^ 32
  let value := msr_write_value regs.rax regs.rdx
  match l.find_msr_device msr with
  | some dev =>
    match dev.write msr value with
    | .ok _ =>
      .ok { regs with rip := regs.rip + VM_EXIT_INSTR_LEN_WRMSR } [.write msr value]
    | .error _ =>
      .panic { msg := "Failed to handle WRMSR", rip := none, regs := none, msr := some msr }
        [.write msr value]
  | none =>
    .panic { msg := "Unsupported WRMSR", rip := none, regs := some regs, msr := some msr } []

/-- Nested-page-fault descriptor (`vcpu.nested_page_fault_info()` payload):
faulting guest physical address and whether the access flags contain
`MappingFlags::WRITE`. -/
structure NestedPageFaultInfo where
  fault_guest_paddr : Nat
  access_flags_write : Bool
  deriving DecidableEq, Repr

/-- `iced_x86::Code`, collapsed to the two cases the source distinguishes:
`INVALID` versus everything else. -/
inductive Code where
  | INVALID
  | valid (tag : Nat)
  deriving DecidableEq, Repr

/-- The `iced_x86::OpKind` cases the source matches on, plus a catch-all for
every other operand kind. -/
inductive OpKind where
  | Register
  | Memory
  | Immediate8
  | Immediate16
  | Immediate32
  | Immediate64
  | other (tag : Nat)
  deriving DecidableEq, Repr

/-- An `iced_x86::Register`, abstracted by its `size()` in bytes
(`Register::None` has size 0). -/
structure Reg where
  size : Nat
  deriving DecidableEq, Repr

/-- An `iced_x86::MemorySize`, abstracted by its `size()` in bytes. -/
structure MemorySize where
  size : Nat
  deriving DecidableEq, Repr

/-- A decoded `iced_x86::Instruction`, abstracted by the queries the source
performs on it: `code()`, `op0_kind()..op2_kind()`, `op_register(n)` and
`memory_size()`. -/
structure Instruction where
  code : Code
  op0_kind : OpKind
  op1_kind : OpKind
  op2_kind : OpKind
  op_register : Nat → Reg
  memory_size : MemorySize

/-- `get_access_size`: width classification of a decoded instruction; the
final `as u8` cast is the `% 2 ^ 8`. -/
def get_access_size (instruction : Instruction) : Except HyperError Nat :=
  match instruction.code with
  | .INVALID => .error .DecodeError
  | .valid _ =>
    let size :=
      match instruction.op0_kind, instruction.op1_kind, instruction.op2_kind with
      | .Register, _, _ | _, .Register, _ | _, _, .Register =>
        (instruction.op_register 0).size
      | .Memory, _, _ | _, .Memory, _ | _, _, .Memory =>
        instruction.memory_size.size
      | .Immediate8, _, _ | _, .Immediate8, _ | _, _, .Immediate8 => 1
      | .Immediate16, _, _ | _, .Immediate16, _ | _, _, .Immediate16 => 2
      | .Immediate32, _, _ | _, .Immediate32, _ | _, _, .Immediate32 => 4
      | .Immediate64, _, _ | _, .Immediate64, _ | _, _, .Immediate64 => 8
      | _, _, _ => 0
    .ok (size % 2 ^ 8)

/-- Outcome of `handle_mmio_instruction`: `Option<HyperResult>` collapsed to
the cases the live code can produce ("not handled") plus panics. -/
inductive MmioOutcome where
  | notHandled
  | panic (diag : PanicDiag)
  deriving DecidableEq, Repr

/-- `DeviceList::handle_mmio_instruction`.  The nested-page-fault lookup is
passed as `fault`.  With an instruction present, the source first runs
`vcpu.nested_page_fault_info().expect("Failed to get nested page fault info")`:
a missing descriptor panics with only that static message (the `else` arm
carrying the guest RIP and vCPU dump is dead, because
`if let ept_info = ...` is an irrefutable pattern).  With the descriptor
present it computes the direction, fault address and access width (whose
`expect` panics on a decode error) and returns "not handled". -/
def DeviceList.handle_mmio_instruction (l : DeviceList) (regs : GuestRegs)
    (exit_info : VmxExitInfo) (instr : Option Instruction)
    (fault : Option NestedPageFaultInfo) : MmioOutcome :=
  match instr with
  | some instr =>
    match fault with
    | some ept_info =>
      let _is_write := ept_info.access_flags_write
      let _fault_addr := ept_info.fault_guest_paddr
      match get_access_size instr with
      | .ok _ => .notHandled
      | .error _ =>
        .panic { msg := "Failed to get access size", rip := none, regs := none, msr := none }
    | none =>
      .panic { msg := "Failed to get nested page fault info",
               rip := none, regs := none, msr := none }
  | none => .notHandled

/-- One `check_events` invocation's inputs: wall-clock time
(`axhal::time::current_time_nanos()`), the master PIC's mask byte at that
moment, and whether/what the local APIC timer would fire. -/
structure CheckInput where
  now : Nat
  mask : Nat
  apic_fire : Bool
  apic_vector : Nat
  deriving DecidableEq, Repr

/-- One `check_events` invocation's effects: the updated `last` timestamp,
the APIC vector queued (if any), and whether the legacy tick queued vector
0x30. -/
structure CheckOutput where
  last' : Option Nat
  apic_queued : Option Nat
  tick_queued : Bool
  deriving DecidableEq, Repr

/-- `X64VcpuDevices::check_events`, as a function of the per-call inputs and
the persistent `last` field.  First call arms `now + 5_000_000_000`; later
calls, once `now > 1_000_000 + last`, queue vector 0x30 exactly when bit 0
of the master PIC mask is clear, and update `last` to `now` in either
case. -/
def check_events (last : Option Nat) (inp : CheckInput) : CheckOutput :=
  let apic_queued := if inp.apic_fire then some inp.apic_vector else none
  match last with
  | some l =>
    if 1000000 + l < inp.now then
      { last' := some inp.now, apic_queued := apic_queued,
        tick_queued := !(Nat.testBit inp.mask 0) }
    else
      { last' := some l, apic_queued := apic_queued, tick_queued := false }
  | none =>
    { last' := some (inp.now + 5000000000), apic_queued := apic_queued,
      tick_queued := false }

/-- The `last` field before call `n` of an infinite `check_events`
trace driven by the per-call inputs `seq` (it starts out `None`). -/
def check_events_last (seq : Nat → CheckInput) : Nat → Option Nat
  | 0 => none
  | n + 1 => (check_events (check_events_last seq n) (seq n)).last'

/-- Whether call `n` of the `check_events` trace queued the legacy tick
vector 0x30. -/
def tick_fired (seq : Nat → CheckInput) (n : Nat) : Bool :=
  (check_events (check_events_last seq n) (seq n)).tick_queued

/-- Width classification following the spec's words (§4.4), for comparison
with `get_access_size`: register operands first, then memory, then the four
known immediate widths, else 0. -/
def access_size_spec (instruction : Instruction) : Nat :=
  if instruction.op0_kind = .Register ∨ instruction.op1_kind = .Register ∨
      instruction.op2_kind = .Register then
    (instruction.op_register 0).size
  else if instruction.op0_kind = .Memory ∨ instruction.op1_kind = .Memory ∨
      instruction.op2_kind = .Memory then
    instruction.memory_size.size
  else if instruction.op0_kind = .Immediate8 ∨ instruction.op1_kind = .Immediate8 ∨
      instruction.op2_kind = .Immediate8 then 1
  else if instruction.op0_kind = .Immediate16 ∨ instruction.op1_kind = .Immediate16 ∨
      instruction.op2_kind = .Immediate16 then 2
  else if instruction.op0_kind = .Immediate32 ∨ instruction.op1_kind = .Immediate32 ∨
      instruction.op2_kind = .Immediate32 then 4
  else if instruction.op0_kind = .Immediate64 ∨ instruction.op1_kind = .Immediate64 ∨
      instruction.op2_kind = .Immediate64 then 8
  else 0

/-! Concrete inputs used by the witness and counterexample theorems. -/

/-- A guest register file with all registers zero. -/
def regs0 : GuestRegs := ⟨0, 0, 0, 0, 0⟩

/-- A 1-byte input exit at COM1's base port. -/
def io_in_3f8 : IoExitInfo := ⟨0x3f8, 1, true, false, false⟩

/-- A string-flagged (INS/OUTS) exit. -/
def io_string_3f8 : IoExitInfo := ⟨0x3f8, 1, true, true, false⟩

/-- An exit descriptor with a 2-byte trapped instruction. -/
def exit0 : VmxExitInfo := ⟨0x1000, 2⟩

/-- A port-I/O device on `0x3f8..0x400` whose reads all yield `0xab`. -/
def uartDev : PioDev :=
  ⟨⟨0x3f8, 0x400⟩, fun _ _ => .ok 0xab, fun _ _ _ => .ok ()⟩

/-- Register file with a recognizable `rax` pattern. -/
def regs_dead12 : GuestRegs := ⟨0xdead12, 0, 0, 0, 0x400⟩

/-- CMOS-like device claiming ports `0x70..0x72`. -/
def cmosDev : PioDev :=
  ⟨⟨0x70, 0x72⟩, fun _ _ => .ok 0, fun _ _ _ => .ok ()⟩

/-- A second device whose port range `0x71..0x73` overlaps `cmosDev`. -/
def overlapDev : PioDev :=
  ⟨⟨0x71, 0x73⟩, fun _ _ => .ok 1, fun _ _ _ => .ok ()⟩

/-- Registry holding the two overlapping devices, `cmosDev` first. -/
def overlapList : DeviceList :=
  { port_io_devices := [cmosDev, overlapDev], memory_io_devices := [],
    msr_devices := [], pci_devices := none }

/-- An MSR device on `0x100..0x200` whose read yields a fixed 64-bit
pattern. -/
def msrDev : MsrDev :=
  ⟨⟨0x100, 0x200⟩, fun _ => .ok 0x123456789abcdef0, fun _ _ => .ok ()⟩

/-- Registry holding only `msrDev`. -/
def msrList : DeviceList :=
  { port_io_devices := [], memory_io_devices := [], msr_devices := [msrDev],
    pci_devices := none }

/-- Register file selecting MSR `0x150`, with nonzero upper halves in
`rax`/`rdx`. -/
def regs_msr : GuestRegs :=
  ⟨2 ^ 63 + 5, 0, 0x150, 2 ^ 40 + 7, 0x2000⟩

/-- A decoded instruction whose only register operand is operand 1 (as in
`mov [mem], reg`): operand 0 is memory, so `op_register(0)` is
`Register::None` with size 0, while the register operand has size 8. -/
def instr_mem_reg : Instruction :=
  { code := .valid 1, op0_kind := .Memory, op1_kind := .Register,
    op2_kind := .other 0,
    op_register := fun n => if n = 1 then ⟨8⟩ else ⟨0⟩,
    memory_size := ⟨8⟩ }

/-- A decoded instruction whose operand 0 is a 4-byte register. -/
def instr_reg32 : Instruction :=
  { code := .valid 2, op0_kind := .Register, op1_kind := .Memory,
    op2_kind := .other 0,
    op_register := fun _ => ⟨4⟩,
    memory_size := ⟨4⟩ }

/-- `check_events` input trace: first call at time 100, later calls 2 ms
apart starting past the 5-second arm point, with the PIC timer line
unmasked. -/
def seq_tick : Nat → CheckInput :=
  fun n => match n with
  | 0 => ⟨100, 1, false, 0⟩
  | _ => ⟨5001000101 + 2000000 * n, 0, false, 0⟩

/-! Helper lemmas. -/

/-- Position-indexed first-match characterization of `List.find?`. -/
theorem find?_eq_some_first {α : Type} (p : α → Bool) (l : List α) (d : α) :
    l.find? p = some d ↔
      ∃ i, ∃ h : i < l.length, l.get ⟨i, h⟩ = d ∧ p d = true ∧
        ∀ j, ∀ hj : j < i, p (l.get ⟨j, Nat.lt_trans hj h⟩) = false := by
  induction l with
  | nil => simp [List.find?]
  | cons a t ih =>
    cases hpa : p a with
    | true =>
      rw [List.find?_cons_of_pos _ hpa]
      constructor
      · intro hd
        injection hd with hd
        subst hd
        exact ⟨0, Nat.succ_pos _, rfl, hpa, fun j hj => absurd hj (Nat.not_lt_zero j)⟩
      · rintro ⟨i, h, hget, _, hmin⟩
        cases i with
        | zero => simpa using congrArg some hget
        | succ k =>
          have h0 := hmin 0 (Nat.succ_pos k)
          simp only [List.get] at h0
          rw [hpa] at h0
          exact absurd h0 (by simp)
    | false =>
      rw [List.find?_cons_of_neg _ (by simp [hpa])]
      rw [ih]
      constructor
      · rintro ⟨i, h, hget, hpd, hmin⟩
        refine ⟨i + 1, Nat.succ_lt_succ h, ?_, hpd, ?_⟩
        · simpa using hget
        · intro j hj
          cases j with
          | zero => simpa using hpa
          | succ k => simpa using hmin k (Nat.lt_of_succ_lt_succ hj)
      · rintro ⟨i, h, hget, hpd, hmin⟩
        cases i with
        | zero =>
          exfalso
          simp only [List.get] at hget
          subst hget
          rw [hpa] at hpd
          exact absurd hpd (by simp)
        | succ k =>
          refine ⟨k, Nat.lt_of_succ_lt_succ h, by simpa using hget, hpd, ?_⟩
          intro j hj
          simpa using hmin (j + 1) (Nat.succ_lt_succ hj)

/-! Claim theorems. -/

/-- C3: `find_port_io_device` / `find_memory_io_device` / `find_msr_device`
each return the first device in registration order whose declared range
contains the key, and `none` exactly when no registered device's range
contains it; with overlapping ranges the device registered earlier wins. -/
theorem c3_find_first_match (l : DeviceList) (port address msr : Nat) :
    (l.find_port_io_device port = none ↔
      ∀ d ∈ l.port_io_devices, d.port_range.contains port = false) ∧
    (∀ d, l.find_port_io_device port = some d ↔
      ∃ i, ∃ h : i < l.port_io_devices.length,
        l.port_io_devices.get ⟨i, h⟩ = d ∧ d.port_range.contains port = true ∧
        ∀ j, ∀ hj : j < i,
          (l.port_io_devices.get ⟨j, Nat.lt_trans hj h⟩).port_range.contains port
            = false) ∧
    (l.find_memory_io_device address = none ↔
      ∀ d ∈ l.memory_io_devices, d.mmio_range.contains address = false) ∧
    (∀ d, l.find_memory_io_device address = some d ↔
      ∃ i, ∃ h : i < l.memory_io_devices.length,
        l.memory_io_devices.get ⟨i, h⟩ = d ∧ d.mmio_range.contains address = true ∧
        ∀ j, ∀ hj : j < i,
          (l.memory_io_devices.get ⟨j, Nat.lt_trans hj h⟩).mmio_range.contains address
            = false) ∧
    (l.find_msr_device msr = none ↔
      ∀ d ∈ l.msr_devices, d.msr_range.contains msr = false) ∧
    (∀ d, l.find_msr_device msr = some d ↔
      ∃ i, ∃ h : i < l.msr_devices.length,
        l.msr_devices.get ⟨i, h⟩ = d ∧ d.msr_range.contains msr = true ∧
        ∀ j, ∀ hj : j < i,
          (l.msr_devices.get ⟨j, Nat.lt_trans hj h⟩).msr_range.contains msr
            = false) := by
  refine ⟨?_, ?_, ?_, ?_, ?_, ?_⟩
  · rw [DeviceList.find_port_io_device, List.find?_eq_none]
    simp
  · intro d
    rw [DeviceList.find_port_io_device, find?_eq_some_first]
  · rw [DeviceList.find_memory_io_device, List.find?_eq_none]
    simp
  · intro d
    rw [DeviceList.find_memory_io_device, find?_eq_some_first]
  · rw [DeviceList.find_msr_device, List.find?_eq_none]
    simp
  · intro d
    rw [DeviceList.find_msr_device, find?_eq_some_first]

/-- C3 witness: with the overlapping ranges `0x70..0x72` and `0x71..0x73`
both containing port 0x71, the device registered first is returned. -/
theorem c3_find_first_match_witness :
    overlapList.find_port_io_device 0x71 = some cmosDev :=
  ((c3_find_first_match overlapList 0x71 0 0).2.1 cmosDev).mpr
    ⟨0, by decide, rfl, by decide, fun j hj => absurd hj (Nat.not_lt_zero j)⟩

/-- C4: `handle_io_instruction` is "not handled" (`none`) iff the port is
outside every registered port-I/O device's range and, additionally, either
no PCI host is installed or the root bus has no port-I/O BAR containing the
port; the PCI root bus is consulted only after the primary list misses, and
any hit returns the shared I/O protocol's result wrapped as handled. -/
theorem c4_handle_io_dispatch (l : DeviceList) (regs : GuestRegs)
    (io_info : IoExitInfo) (exit_info : VmxExitInfo) :
    (l.handle_io_instruction regs io_info exit_info = none ↔
      (∀ d ∈ l.port_io_devices, d.port_range.contains io_info.port = false) ∧
      (∀ h, l.pci_devices = some h → h.root_bus.find_pio_bar io_info.port = none)) ∧
    (∀ d, l.find_port_io_device io_info.port = some d →
      l.handle_io_instruction regs io_info exit_info =
        some (handle_io_instruction_to_device d regs io_info exit_info)) ∧
    (∀ h bar, l.find_port_io_device io_info.port = none →
      l.pci_devices = some h →
      h.root_bus.find_pio_bar io_info.port = some bar →
      l.handle_io_instruction regs io_info exit_info =
        some (handle_io_instruction_to_device bar regs io_info exit_info)) := by
  refine ⟨?_, ?_, ?_⟩
  · constructor
    · intro hnone
      rw [DeviceList.handle_io_instruction] at hnone
      cases hfind : l.find_port_io_device io_info.port with
      | some dev => simp [hfind] at hnone
      | none =>
        have hchar : ∀ d ∈ l.port_io_devices,
            d.port_range.contains io_info.port = false := by
          have h2 := hfind
          rw [DeviceList.find_port_io_device, List.find?_eq_none] at h2
          simpa using h2
        refine ⟨hchar, ?_⟩
        intro h hh
        simp only [hfind, hh] at hnone
        cases hbar : h.root_bus.find_pio_bar io_info.port with
        | some bar => simp [hbar] at hnone
        | none => rfl
    · rintro ⟨hnone, hpcinone⟩
      have hfind : l.find_port_io_device io_info.port = none := by
        rw [DeviceList.find_port_io_device, List.find?_eq_none]
        simpa using hnone
      cases hpci : l.pci_devices with
      | none => simp [DeviceList.handle_io_instruction, hfind, hpci]
      | some host =>
        simp [DeviceList.handle_io_instruction, hfind, hpci, hpcinone host hpci]
  · intro d hfind
    simp [DeviceList.handle_io_instruction, hfind]
  · intro h bar hfind hpci hbar
    simp [DeviceList.handle_io_instruction, hfind, hpci, hbar]

/-- C4 witness: with no devices registered and no PCI host, a port-I/O exit
is "not handled". -/
theorem c4_handle_io_dispatch_witness :
    DeviceList.new.handle_io_instruction regs0 io_in_3f8 exit0 = none :=
  (c4_handle_io_dispatch DeviceList.new regs0 io_in_3f8 exit0).1.mpr
    ⟨by intro d hd; exact absurd hd (by simp [DeviceList.new]),
     by intro h hh; exact absurd hh (by simp [DeviceList.new])⟩

/-- C5: when the MSR index in the low 32 bits of `rcx` is outside every
registered MSR device's range, `handle_msr_read` panics (with the MSR index
and the vCPU dump) and never returns successfully — in particular it never
stores any default value into the guest's `rax`/`rdx`. -/
theorem c5_unsupported_rdmsr (l : DeviceList) (regs : GuestRegs)
    (h : l.find_msr_device (regs.rcx % 2 ^ 32) = none) :
    l.handle_msr_read regs =
      .panic { msg := "Unsupported RDMSR", rip := none, regs := some regs,
               msr := some (regs.rcx % 2 ^ 32) } [] ∧
    ∀ regs' ev, l.handle_msr_read regs ≠ .ok regs' ev := by
  have hmain : l.handle_msr_read regs =
      .panic { msg := "Unsupported RDMSR", rip := none, regs := some regs,
               msr := some (regs.rcx % 2 ^ 32) } [] := by
    rw [DeviceList.handle_msr_read]
    simp only [h]
  exact ⟨hmain, fun regs' ev hcontra => by rw [hmain] at hcontra; exact absurd hcontra (by simp)⟩

/-- C5 witness: a RDMSR of `rcx = 3` against an empty registry panics with
the index and vCPU dump and does not return. -/
theorem c5_unsupported_rdmsr_witness :
    DeviceList.new.handle_msr_read ⟨1, 2, 3, 4, 5⟩ =
      .panic { msg := "Unsupported RDMSR", rip := none, regs := some ⟨1, 2, 3, 4, 5⟩,
               msr := some 3 } [] :=
  (c5_unsupported_rdmsr DeviceList.new ⟨1, 2, 3, 4, 5⟩ rfl).1

/-- The recombined WRMSR value in arithmetic form:
`rax % 2^32 + 2^32 * (rdx % 2^32)`. -/
theorem msr_write_value_eq (rax rdx : Nat) :
    msr_write_value rax rdx = rax % 2 ^ 32 + 2 ^ 32 * (rdx % 2 ^ 32) := by
  rw [msr_write_value]
  have h1 : rax &&& 0xffffffff = rax % 2 ^ 32 := by
    rw [show (0xffffffff : Nat) = 2 ^ 32 - 1 by norm_num]
    exact Nat.and_pow_two_sub_one_eq_mod rax 32
  have h2 : (rdx <<< 32) % 2 ^ 64 = 2 ^ 32 * (rdx % 2 ^ 32) := by
    rw [Nat.shiftLeft_eq, show (2 : Nat) ^ 64 = 2 ^ 32 * 2 ^ 32 by norm_num,
      Nat.mul_mod_mul_right]
    ring
  rw [h1, h2, Nat.lor_comm, ← Nat.mul_add_lt_is_or (Nat.mod_lt _ (by norm_num)) _]
  ring

/-- C10: the 64-bit value `handle_msr_write` hands to the device is exactly
`rax % 2^32 + 2^32 * (rdx % 2^32)`; the upper halves of `rax` and `rdx`
never influence it. -/
theorem c10_wrmsr_value (l : DeviceList) (regs : GuestRegs) (d : MsrDev)
    (hfind : l.find_msr_device (regs.rcx % 2 ^ 32) = some d) :
    (l.handle_msr_write regs).events =
      [MsrEvent.write (regs.rcx % 2 ^ 32)
        (regs.rax % 2 ^ 32 + 2 ^ 32 * (regs.rdx % 2 ^ 32))] ∧
    ∀ rax' rdx', rax' % 2 ^ 32 = regs.rax % 2 ^ 32 →
      rdx' % 2 ^ 32 = regs.rdx % 2 ^ 32 →
      msr_write_value rax' rdx' = msr_write_value regs.rax regs.rdx := by
  constructor
  · rw [DeviceList.handle_msr_write]
    simp only [hfind]
    cases hw : d.write (regs.rcx % 2 ^ 32) (msr_write_value regs.rax regs.rdx) with
    | ok u => simp [hw, MsrOutcome.events, msr_write_value_eq]
    | error e => simp [hw, MsrOutcome.events, msr_write_value_eq]
  · intro rax' rdx' ha hd
    rw [msr_write_value_eq, msr_write_value_eq, ha, hd]

/-- C10 witness: WRMSR of MSR 0x150 with `rax = 2^63 + 5`, `rdx = 2^40 + 7`
hands the device `5 + 2^32 * 7`. -/
theorem c10_wrmsr_value_witness :
    (msrList.handle_msr_write regs_msr).events = [MsrEvent.write 0x150 30064771077] := by
  have h := (c10_wrmsr_value msrList regs_msr msrDev rfl).1
  norm_num [regs_msr] at h
  exact h

/-- C7: RDMSR splits a device value `v < 2^64` into `rax`/`rdx` halves, and
an immediately following WRMSR with the same `rcx` recombines exactly `v`
and hands it back to the device. -/
theorem c7_msr_round_trip (l : DeviceList) (regs : GuestRegs) (d : MsrDev) (v : Nat)
    (hfind : l.find_msr_device (regs.rcx % 2 ^ 32) = some d)
    (hread : d.read (regs.rcx % 2 ^ 32) = .ok v) (hv : v < 2 ^ 64) :
    ∃ regs',
      l.handle_msr_read regs = .ok regs' [.read (regs.rcx % 2 ^ 32)] ∧
      regs'.rax = v % 2 ^ 32 ∧ regs'.rdx = v / 2 ^ 32 ∧ regs'.rcx = regs.rcx ∧
      (l.handle_msr_write regs').events =
        [MsrEvent.write (regs.rcx % 2 ^ 32) v] := by
  refine ⟨{ regs with
      rax := v &&& 0xffffffff,
      rdx := v >>> 32,
      rip := regs.rip + VM_EXIT_INSTR_LEN_RDMSR }, ?_, ?_, ?_, rfl, ?_⟩
  · rw [DeviceList.handle_msr_read]
    simp only [hfind, hread]
  · show v &&& 0xffffffff = v % 2 ^ 32
    rw [show (0xffffffff : Nat) = 2 ^ 32 - 1 by norm_num]
    exact Nat.and_pow_two_sub_one_eq_mod v 32
  · show v >>> 32 = v / 2 ^ 32
    exact Nat.shiftRight_eq_div_pow v 32
  · have hval : msr_write_value (v &&& 0xffffffff) (v >>> 32) = v := by
      rw [msr_write_value_eq, show (0xffffffff : Nat) = 2 ^ 32 - 1 by norm_num,
        Nat.and_pow_two_sub_one_eq_mod, Nat.shiftRight_eq_div_pow]
      have h32 : (2 : Nat) ^ 32 = 4294967296 := by norm_num
      have h64 : (2 : Nat) ^ 64 = 18446744073709551616 := by norm_num
      rw [h32, h64] at *
      omega
    rw [DeviceList.handle_msr_write]
    simp only [hval]
    simp only [hfind]
    cases hw : d.write (regs.rcx % 2 ^ 32) v with
    | ok u => simp [hw, MsrOutcome.events]
    | error e => simp [hw, MsrOutcome.events]

/-- C7 witness: a round trip of the 64-bit pattern `0x123456789abcdef0`
through MSR 0x150. -/
theorem c7_msr_round_trip_witness :
    ∃ regs',
      msrList.handle_msr_read regs_msr = .ok regs' [.read 0x150] ∧
      regs'.rax = 0x9abcdef0 ∧ regs'.rdx = 0x12345678 ∧ regs'.rcx = 0x150 ∧
      (msrList.handle_msr_write regs').events =
        [MsrEvent.write 0x150 0x123456789abcdef0] :=
  c7_msr_round_trip msrList regs_msr msrDev 0x123456789abcdef0 rfl rfl (by norm_num)

/-- C2: a string- or repeat-flagged I/O exit yields `NotSupported` with no
device access and every guest register (and the instruction pointer)
unchanged. -/
theorem c2_string_repeat_not_supported (dev : PioDev) (regs : GuestRegs)
    (io_info : IoExitInfo) (exit_info : VmxExitInfo)
    (h : io_info.is_string = true ∨ io_info.is_repeat = true) :
    handle_io_instruction_to_device dev regs io_info exit_info =
      (.fail .NotSupported regs, []) := by
  rw [handle_io_instruction_to_device]
  rcases h with h | h
  · simp [h]
  · cases hs : io_info.is_string <;> simp [hs, h]

/-- C2 witness: an INS-flagged exit is rejected without touching the device
or the registers. -/
theorem c2_string_repeat_not_supported_witness :
    handle_io_instruction_to_device uartDev regs_dead12 io_string_3f8 exit0 =
      (.fail .NotSupported regs_dead12, []) :=
  c2_string_repeat_not_supported uartDev regs_dead12 io_string_3f8 exit0 (Or.inl rfl)

/-- Bits of a contiguous mask of `w` ones shifted up by `s`. -/
theorem testBit_shifted_ones (s w i : Nat) :
    Nat.testBit ((2 ^ w - 1) <<< s) i = (decide (s ≤ i) && decide (i < s + w)) := by
  rw [Nat.testBit_shiftLeft, Nat.testBit_two_pow_sub_one]
  rcases Nat.lt_or_ge i s with h | h
  · simp [Nat.not_le.mpr h]
  · have hg : (decide (i ≥ s)) = true := by simp [ge_iff_le, h]
    rw [hg]
    simp only [Bool.true_and]
    exact decide_eq_decide.mpr (by omega)

/-- C1: on an I/O-input exit, a 1-byte (resp. 2-byte) access rewrites only
the low 8 (resp. 16) bits of `rax` with the device value's bits and leaves
all higher bits unchanged, while a 4-byte access overwrites `rax` with the
32-bit device value zero-extended to 64 bits. -/
theorem c1_io_in_rax_update (dev : PioDev) (regs : GuestRegs)
    (io_info : IoExitInfo) (exit_info : VmxExitInfo) (v : Nat)
    (hs : io_info.is_string = false) (hr : io_info.is_repeat = false)
    (hin : io_info.is_in = true)
    (hread : dev.read io_info.port io_info.access_size = .ok v)
    (hrax : regs.rax < 2 ^ 64) :
    (io_info.access_size = 1 →
      ∃ regs', handle_io_instruction_to_device dev regs io_info exit_info =
          (.ok regs', [.read io_info.port io_info.access_size]) ∧
        (∀ i, i < 8 → regs'.rax.testBit i = v.testBit i) ∧
        (∀ i, 8 ≤ i → regs'.rax.testBit i = regs.rax.testBit i)) ∧
    (io_info.access_size = 2 →
      ∃ regs', handle_io_instruction_to_device dev regs io_info exit_info =
          (.ok regs', [.read io_info.port io_info.access_size]) ∧
        (∀ i, i < 16 → regs'.rax.testBit i = v.testBit i) ∧
        (∀ i, 16 ≤ i → regs'.rax.testBit i = regs.rax.testBit i)) ∧
    (io_info.access_size = 4 → v < 2 ^ 32 →
      ∃ regs', handle_io_instruction_to_device dev regs io_info exit_info =
          (.ok regs', [.read io_info.port io_info.access_size]) ∧
        regs'.rax = v) := by
  refine ⟨?_, ?_, ?_⟩
  · intro hsz
    rw [hsz] at hread
    refine ⟨{ regs with
        rax := regs.rax &&& 0xffffffffffffff00 ||| (v &&& 0xff),
        rip := regs.rip + exit_info.exit_instruction_length }, ?_, ?_, ?_⟩
    · rw [handle_io_instruction_to_device]
      simp [hs, hr, hin, hread, hsz]
    · intro i hi
      show (regs.rax &&& 0xffffffffffffff00 ||| (v &&& 0xff)).testBit i = v.testBit i
      rw [Nat.testBit_or, Nat.testBit_and, Nat.testBit_and,
        show (0xffffffffffffff00 : Nat) = (2 ^ 56 - 1) <<< 8 by
          norm_num [Nat.shiftLeft_eq],
        testBit_shifted_ones,
        show (0xff : Nat) = 2 ^ 8 - 1 by norm_num,
        Nat.testBit_two_pow_sub_one]
      simp [hi, show ¬ (8 ≤ i) by omega]
    · intro i hi
      show (regs.rax &&& 0xffffffffffffff00 ||| (v &&& 0xff)).testBit i
        = regs.rax.testBit i
      rw [Nat.testBit_or, Nat.testBit_and, Nat.testBit_and,
        show (0xffffffffffffff00 : Nat) = (2 ^ 56 - 1) <<< 8 by
          norm_num [Nat.shiftLeft_eq],
        testBit_shifted_ones,
        show (0xff : Nat) = 2 ^ 8 - 1 by norm_num,
        Nat.testBit_two_pow_sub_one]
      rcases Nat.lt_or_ge i 64 with h64 | h64
      · simp [hi, show i < 8 + 56 by omega, show ¬ (i < 8) by omega]
      · have hz : regs.rax.testBit i = false :=
          Nat.testBit_lt_two_pow
            (Nat.lt_of_lt_of_le hrax (Nat.pow_le_pow_right (by norm_num) h64))
        simp [hz, show ¬ (i < 8 + 56) by omega, show ¬ (i < 8) by omega]
  · intro hsz
    rw [hsz] at hread
    refine ⟨{ regs with
        rax := regs.rax &&& 0xffffffffffff0000 ||| (v &&& 0xffff),
        rip := regs.rip + exit_info.exit_instruction_length }, ?_, ?_, ?_⟩
    · rw [handle_io_instruction_to_device]
      simp [hs, hr, hin, hread, hsz]
    · intro i hi
      show (regs.rax &&& 0xffffffffffff0000 ||| (v &&& 0xffff)).testBit i = v.testBit i
      rw [Nat.testBit_or, Nat.testBit_and, Nat.testBit_and,
        show (0xffffffffffff0000 : Nat) = (2 ^ 48 - 1) <<< 16 by
          norm_num [Nat.shiftLeft_eq],
        testBit_shifted_ones,
        show (0xffff : Nat) = 2 ^ 16 - 1 by norm_num,
        Nat.testBit_two_pow_sub_one]
      simp [hi, show ¬ (16 ≤ i) by omega]
    · intro i hi
      show (regs.rax &&& 0xffffffffffff0000 ||| (v &&& 0xffff)).testBit i
        = regs.rax.testBit i
      rw [Nat.testBit_or, Nat.testBit_and, Nat.testBit_and,
        show (0xffffffffffff0000 : Nat) = (2 ^ 48 - 1) <<< 16 by
          norm_num [Nat.shiftLeft_eq],
        testBit_shifted_ones,
        show (0xffff : Nat) = 2 ^ 16 - 1 by norm_num,
        Nat.testBit_two_pow_sub_one]
      rcases Nat.lt_or_ge i 64 with h64 | h64
      · simp [hi, show i < 16 + 48 by omega, show ¬ (i < 16) by omega]
      · have hz : regs.rax.testBit i = false :=
          Nat.testBit_lt_two_pow
            (Nat.lt_of_lt_of_le hrax (Nat.pow_le_pow_right (by norm_num) h64))
        simp [hz, show ¬ (i < 16 + 48) by omega, show ¬ (i < 16) by omega]
  · intro hsz hv
    rw [hsz] at hread
    refine ⟨{ regs with
        rax := v,
        rip := regs.rip + exit_info.exit_instruction_length }, ?_, rfl⟩
    rw [handle_io_instruction_to_device]
    simp [hs, hr, hin, hread, hsz]

/-- C1 witness: reading byte `0xab` into `rax = 0xdead12` yields
`rax = 0xdeadab`: the low byte is the device value's, bit 12 (and all other
high bits) are untouched. -/
theorem c1_io_in_rax_update_witness :
    handle_io_instruction_to_device uartDev regs_dead12 io_in_3f8 exit0 =
      (.ok ⟨0xdeadab, 0, 0, 0, 0x402⟩, [.read 0x3f8 1]) ∧
    (0xdeadab : Nat).testBit 0 = (0xab : Nat).testBit 0 ∧
    (0xdeadab : Nat).testBit 12 = (0xdead12 : Nat).testBit 12 := by
  obtain ⟨regs', h1, hlow, hhigh⟩ :=
    (c1_io_in_rax_update uartDev regs_dead12 io_in_3f8 exit0 0xab rfl rfl rfl rfl
      (by decide)).1 rfl
  have h2 : handle_io_instruction_to_device uartDev regs_dead12 io_in_3f8 exit0 =
      (.ok ⟨0xdeadab, 0, 0, 0, 0x402⟩, [.read 0x3f8 1]) := by decide
  have h3 := h1.symm.trans h2
  have h4 : PioOutcome.ok regs' = PioOutcome.ok ⟨0xdeadab, 0, 0, 0, 0x402⟩ :=
    congrArg Prod.fst h3
  have h5 : regs' = ⟨0xdeadab, 0, 0, 0, 0x402⟩ := by injection h4
  subst h5
  exact ⟨h2, hlow 0 (by norm_num), hhigh 12 (by norm_num)⟩

/-- C8 counterexample: for an instruction whose only register operand is
operand 1 (operand 0 is a memory operand, as in `mov [mem], reg`),
`get_access_size` returns the size of operand 0's register — `Register::None`,
size 0 — and not the 8-byte width of the register operand, contradicting the
claim's "width of that register operand". -/
theorem c8_register_operand_counterexample :
    instr_mem_reg.op1_kind = OpKind.Register ∧
    (instr_mem_reg.op_register 1).size = 8 ∧
    get_access_size instr_mem_reg = .ok 0 ∧
    get_access_size instr_mem_reg ≠ .ok ((instr_mem_reg.op_register 1).size) := by
  refine ⟨rfl, rfl, rfl, ?_⟩
  have h0 : get_access_size instr_mem_reg = .ok 0 := rfl
  rw [h0]
  simp [instr_mem_reg]

/-- C8 (amended): `get_access_size` yields `DecodeError` on `INVALID` and
otherwise the width determined by inspecting, in order: if any of the first
three operands is a register, the size of operand 0's register (0 when
operand 0 carries no register); else if any is a memory operand, the
addressed memory size; else if any is an immediate of known width, 1/2/4/8
bytes accordingly; else 0. -/
theorem c8_access_size_classification (instruction : Instruction)
    (hreg : (instruction.op_register 0).size < 2 ^ 8)
    (hmem : instruction.memory_size.size < 2 ^ 8) :
    (instruction.code = .INVALID →
      get_access_size instruction = .error .DecodeError) ∧
    (instruction.code ≠ .INVALID →
      get_access_size instruction = .ok (access_size_spec instruction)) := by
  constructor
  · intro hc
    simp [get_access_size, hc]
  · intro hc
    have hregm : (instruction.op_register 0).size % 2 ^ 8
        = (instruction.op_register 0).size := Nat.mod_eq_of_lt hreg
    have hmemm : instruction.memory_size.size % 2 ^ 8
        = instruction.memory_size.size := Nat.mod_eq_of_lt hmem
    have hreg2 : (instruction.op_register 0).size < 256 := by
      have h := hreg
      norm_num at h
      exact h
    have hmem2 : instruction.memory_size.size < 256 := by
      have h := hmem
      norm_num at h
      exact h
    cases hcode : instruction.code with
    | INVALID => exact absurd hcode hc
    | valid tag =>
      cases h0 : instruction.op0_kind <;> cases h1 : instruction.op1_kind <;>
        cases h2 : instruction.op2_kind <;>
        simp [get_access_size, access_size_spec, hcode, h0, h1, h2, hregm, hmemm,
          hreg2, hmem2]

/-- C8 witness: an instruction whose operand 0 is a 4-byte register
classifies as width 4. -/
theorem c8_access_size_classification_witness :
    get_access_size instr_reg32 = .ok (access_size_spec instr_reg32) ∧
    access_size_spec instr_reg32 = 4 :=
  ⟨(c8_access_size_classification instr_reg32 (by decide) (by decide)).2 (by decide),
   by decide⟩

/-- C9: with a decoded instruction present and the nested-page-fault
descriptor missing, `handle_mmio_instruction` does abort, but through
`Result::expect` with only the static message "Failed to get nested page
fault info" — carrying neither the guest instruction pointer nor the vCPU
state, because the `panic!` arm that would format them is unreachable
(`if let ept_info = ...expect(...)` is an irrefutable pattern); with the
instruction absent it returns "not handled" without aborting. -/
theorem c9_mmio_missing_fault_info :
    DeviceList.new.handle_mmio_instruction regs_dead12 exit0 (some instr_reg32) none =
      .panic { msg := "Failed to get nested page fault info",
               rip := none, regs := none, msr := none } ∧
    DeviceList.new.handle_mmio_instruction regs_dead12 exit0 none none =
      .notHandled :=
  ⟨rfl, rfl⟩

/-- The armed `last` timestamp of a `check_events` trace never decreases. -/
theorem check_events_last_mono (seq : Nat → CheckInput) (m n L : Nat)
    (h : check_events_last seq m = some L) (hmn : m ≤ n) :
    ∃ L2, check_events_last seq n = some L2 ∧ L ≤ L2 := by
  induction n with
  | zero =>
    have hm0 : m = 0 := Nat.le_zero.mp hmn
    rw [hm0] at h
    simp [check_events_last] at h
  | succ k ih =>
    rcases Nat.lt_or_ge m (k + 1) with hlt | hge
    · obtain ⟨L2, hL2, hle⟩ := ih (Nat.lt_succ_iff.mp hlt)
      by_cases hth : 1000000 + L2 < (seq k).now
      · exact ⟨(seq k).now,
          by simp [check_events_last, hL2, check_events, hth], by omega⟩
      · exact ⟨L2, by simp [check_events_last, hL2, check_events, hth], hle⟩
    · have hm : m = k + 1 := by omega
      rw [hm] at h
      exact ⟨L, h, Nat.le_refl L⟩

/-- What a fired legacy tick at call `n` implies: an armed `last` timestamp
more than 1 ms old, a clear PIC mask bit 0, and `last` re-armed to the
current time. -/
theorem tick_fired_spec (seq : Nat → CheckInput) (n : Nat)
    (h : tick_fired seq n = true) :
    ∃ L, check_events_last seq n = some L ∧ 1000000 + L < (seq n).now ∧
      Nat.testBit (seq n).mask 0 = false ∧
      check_events_last seq (n + 1) = some (seq n).now := by
  rw [tick_fired] at h
  cases hL : check_events_last seq n with
  | none => rw [hL] at h; simp [check_events] at h
  | some L =>
    rw [hL] at h
    by_cases hth : 1000000 + L < (seq n).now
    · refine ⟨L, rfl, hth, ?_, ?_⟩
      · simp [check_events, hth] at h
        simpa using h
      · simp [check_events_last, hL, check_events, hth]
    · simp [check_events, hth] at h

/-- C6: over any `check_events` trace, the first call queues no legacy tick
and arms `last` to `now + 5` seconds; a tick is only ever queued strictly
after 5 seconds past the first call's time; any two ticks are more than
1 ms of wall-clock time apart; and a tick queues only while bit 0 of the
master PIC mask is clear. -/
theorem c6_legacy_tick (seq : Nat → CheckInput) :
    tick_fired seq 0 = false ∧
    check_events_last seq 1 = some ((seq 0).now + 5000000000) ∧
    (∀ n, tick_fired seq n = true → (seq 0).now + 5000000000 < (seq n).now) ∧
    (∀ i j, i < j → tick_fired seq i = true → tick_fired seq j = true →
      (seq i).now + 1000000 < (seq j).now) ∧
    (∀ n, tick_fired seq n = true → Nat.testBit (seq n).mask 0 = false) := by
  have hfirst : check_events_last seq 1 = some ((seq 0).now + 5000000000) := by
    simp [check_events_last, check_events]
  refine ⟨?_, hfirst, ?_, ?_, ?_⟩
  · simp [tick_fired, check_events_last, check_events]
  · intro n hn
    obtain ⟨L, hL, hth, hmask, hnext⟩ := tick_fired_spec seq n hn
    cases n with
    | zero => simp [check_events_last] at hL
    | succ k =>
      obtain ⟨L2, hL2, hle⟩ :=
        check_events_last_mono seq 1 (k + 1) ((seq 0).now + 5000000000) hfirst (by omega)
      rw [hL2] at hL
      injection hL with hL
      omega
  · intro i j hij hi hj
    obtain ⟨Li, hLi, hthi, hmi, hnexti⟩ := tick_fired_spec seq i hi
    obtain ⟨Lj, hLj, hthj, hmj, hnextj⟩ := tick_fired_spec seq j hj
    obtain ⟨L2, hL2, hle⟩ :=
      check_events_last_mono seq (i + 1) j ((seq i).now) hnexti hij
    rw [hL2] at hLj
    injection hLj with hLj
    omega
  · intro n hn
    obtain ⟨L, hL, hth, hmask, hnext⟩ := tick_fired_spec seq n hn
    exact hmask

/-- C6 witness: on the concrete trace `seq_tick`, call 1 ticks strictly
after the 5-second arm point, calls 1 and 2 tick more than 1 ms apart, and
the tick happened with PIC mask bit 0 clear. -/
theorem c6_legacy_tick_witness :
    tick_fired seq_tick 1 = true ∧
    (seq_tick 0).now + 5000000000 < (seq_tick 1).now ∧
    (seq_tick 1).now + 1000000 < (seq_tick 2).now ∧
    Nat.testBit (seq_tick 1).mask 0 = false :=
  ⟨by decide,
   (c6_legacy_tick seq_tick).2.2.1 1 (by decide),
   (c6_legacy_tick seq_tick).2.2.2.1 1 2 (by omega) (by decide) (by decide),
   (c6_legacy_tick seq_tick).2.2.2.2 1 (by decide)⟩

end AxvmX86Device
